import Mathlib

/-!
Verification of the resilient request engine of the dub CLI
(`internal/api/client.go` and `internal/api/errors.go`): circuit breaker,
retry policy and request executor, shallowly embedded in Lean 4.

Time is modelled as integer nanoseconds (Go `time.Duration` / `time.Time`
monotonic reading); the transport layer is modelled as a script: a list of
per-attempt results that the executor consumes one element per HTTP attempt.
-/

namespace DubApi

/-- Translation of `CircuitState` (client.go): Closed / Open / HalfOpen. -/
inductive CircuitState
  | Closed
  | Open
  | HalfOpen
deriving DecidableEq

/-- The circuit-breaker fields of `Client` (client.go): `cbState`,
`cbConsecutive5xx`, `cbOpenedAt`, `cbHalfOpenInFlight`. The mutex is not
modelled: each Go critical section becomes one pure state-transition
function. -/
structure CBState where
  state : CircuitState
  consecutive5xx : Nat
  openedAt : Int
  halfOpenInFlight : Bool
deriving DecidableEq

/-- The client configuration fields relevant to retry and breaker logic:
`cbThreshold`, `cbCooldown`, and the package constants
`MaxRateLimitRetries`, `RateLimitBaseDelay`, `Max5xxRetries`,
`ServerErrorRetryDelay` (client.go). -/
structure Config where
  cbThreshold : Nat
  cbCooldown : Int
  maxRateLimitRetries : Nat
  rateLimitBaseDelay : Int
  max5xxRetries : Nat
  serverErrorRetryDelay : Int
deriving DecidableEq

/-- Nanoseconds in one Go `time.Second`. -/
def second : Int := 1000000000

/-- The package-level constants of client.go: threshold 5, cooldown 30 s,
3 rate-limit retries with 1 s base delay, 1 server-error retry with 1 s
delay. -/
def defaultConfig : Config :=
  { cbThreshold := 5
    cbCooldown := 30 * second
    maxRateLimitRetries := 3
    rateLimitBaseDelay := second
    max5xxRetries := 1
    serverErrorRetryDelay := second }

/-- Translation of `Client.checkCircuitBreaker` (client.go). Returns
whether the request is allowed (`true` = Go `nil` error, `false` = Go
`ErrCircuitOpen`) together with the updated breaker state. Note that the
Open-with-elapsed-cooldown branch transitions to `HalfOpen` without
touching `halfOpenInFlight`, exactly as the Go code does. -/
def checkCircuitBreaker (cooldown : Int) (now : Int) (cb : CBState) : Bool × CBState :=
  match cb.state with
  | CircuitState.Closed => (true, cb)
  | CircuitState.Open =>
    if cooldown ≤ now - cb.openedAt then
      (true, { cb with state := CircuitState.HalfOpen })
    else
      (false, cb)
  | CircuitState.HalfOpen =>
    if cb.halfOpenInFlight then
      (false, cb)
    else
      (true, { cb with halfOpenInFlight := true })

/-- Translation of `Client.recordSuccess` (client.go). -/
def recordSuccess (cb : CBState) : CBState :=
  { cb with
    state := CircuitState.Closed
    consecutive5xx := 0
    halfOpenInFlight := false }

/-- Translation of `Client.record5xxError` (client.go): increment the
consecutive-5xx counter and clear the in-flight flag; a half-open probe
failure reopens the circuit, otherwise reaching the threshold opens it,
recording `openedAt = now` in both cases. -/
def record5xxError (threshold : Nat) (now : Int) (cb : CBState) : CBState :=
  let cb1 := { cb with
    consecutive5xx := cb.consecutive5xx + 1
    halfOpenInFlight := false }
  if cb1.state = CircuitState.HalfOpen then
    { cb1 with state := CircuitState.Open, openedAt := now }
  else if threshold ≤ cb1.consecutive5xx then
    { cb1 with state := CircuitState.Open, openedAt := now }
  else
    cb1

/-- Translation of `Client.ResetCircuitBreaker` (client.go). -/
def ResetCircuitBreaker (_cb : CBState) : CBState :=
  { state := CircuitState.Closed
    consecutive5xx := 0
    openedAt := 0
    halfOpenInFlight := false }

/-- Translation of `Client.CircuitBreakerState` (client.go). -/
def CircuitBreakerState (cb : CBState) : CircuitState :=
  cb.state

/-- Result of one HTTP round trip as seen by `doWithRetry`: either a
transport-layer error (`httpClient.Do` returned a non-nil error) or a
response with its status code and the `Retry-After` header. The header is
modelled post-parse: `some s` means the header was present, non-empty and
`strconv.Atoi` succeeded with value `s`; `none` covers an absent or
unparseable header. -/
inductive TransportResult
  | failure
  | response (status : Nat) (retryAfter : Option Int)
deriving DecidableEq

/-- One scripted transport attempt: its result plus the raw random value
the attempt would draw from `math/rand` for jitter, making the randomness
an explicit input. -/
structure Attempt where
  result : TransportResult
  rand : Nat
deriving DecidableEq

/-- Return value of the executor, the shape of Go `(resp, err)`:
`response s` is `(resp, nil)` with status `s`; `circuitOpen` is
`(nil, ErrCircuitOpen)`; `transportError` is `(nil, err)` from the
transport; `scriptExhausted` is an artifact of the scripted transport
(the run needed more attempts than the script provides). -/
inductive ExecOutcome
  | response (status : Nat)
  | circuitOpen
  | transportError
  | scriptExhausted
deriving DecidableEq

/-- Model of `math/rand.Int63n` (stdlib): for `0 < n` it returns a
uniformly distributed value in `[0, n)`; the draw is realized by reducing
the caller-supplied raw random value modulo `n`, which yields exactly the
guaranteed range. -/
def int63n (n : Int) (r : Nat) : Int :=
  (r : Int) % n

/-- Translation of the 429 delay computation in `Client.doWithRetry`
(client.go): `baseDelay * 2^retries429` plus `Int63n(base/2)` jitter,
overridden by a parseable `Retry-After` header of `seconds` whole
seconds. -/
def computeDelay429 (baseDelay : Int) (retries429 : Nat) (rand : Nat)
    (retryAfter : Option Int) : Int :=
  let base := baseDelay * 2 ^ retries429
  let jitter := int63n (base / 2) rand
  let delay := base + jitter
  match retryAfter with
  | some seconds => seconds * second
  | none => delay

/-- Translation of the retry loop of `Client.doWithRetry` (client.go).
Arguments after the script: current time, breaker state, `retries429`,
`retries5xx`, and the count of transport attempts already performed
(`used`, counting the stub transport's calls). Returns the outcome, the
total number of transport attempts, and the final breaker state. Waits
advance the modelled clock by the computed delay; context cancellation is
not modelled (the theorems concern runs whose context never fires). -/
def doWithRetryLoop (cfg : Config) (isIdem : Bool) :
    List Attempt → Int → CBState → Nat → Nat → Nat → ExecOutcome × Nat × CBState
  | script, now, cb, retries429, retries5xx, used =>
    match checkCircuitBreaker cfg.cbCooldown now cb with
    | (false, cb2) => (ExecOutcome.circuitOpen, used, cb2)
    | (true, cb2) =>
      match script with
      | [] => (ExecOutcome.scriptExhausted, used, cb2)
      | a :: rest =>
        match a.result with
        | TransportResult.failure => (ExecOutcome.transportError, used + 1, cb2)
        | TransportResult.response status retryAfter =>
          if 200 ≤ status ∧ status < 300 then
            (ExecOutcome.response status, used + 1, recordSuccess cb2)
          else if 400 ≤ status ∧ status < 500 ∧ status ≠ 429 then
            (ExecOutcome.response status, used + 1, recordSuccess cb2)
          else if status = 429 then
            if cfg.maxRateLimitRetries ≤ retries429 then
              (ExecOutcome.response status, used + 1, cb2)
            else
              doWithRetryLoop cfg isIdem rest
                (now + computeDelay429 cfg.rateLimitBaseDelay retries429 a.rand retryAfter)
                cb2 (retries429 + 1) retries5xx (used + 1)
          else if 500 ≤ status then
            if isIdem = false ∨ cfg.max5xxRetries ≤ retries5xx then
              (ExecOutcome.response status, used + 1, record5xxError cfg.cbThreshold now cb2)
            else
              doWithRetryLoop cfg isIdem rest (now + cfg.serverErrorRetryDelay)
                (record5xxError cfg.cbThreshold now cb2) retries429 (retries5xx + 1) (used + 1)
          else
            (ExecOutcome.response status, used + 1, cb2)

/-- Translation of the idempotency test in `Client.doWithRetry`
(client.go): `req.Method == "GET" || req.Method == "HEAD" ||
req.Method == "OPTIONS"`. -/
def isIdempotent (method : String) : Bool :=
  method == ("GET") || method == ("HEAD") || method == ("OPTIONS")

/-- Translation of `Client.doWithRetry` (client.go): the loop entered with
both retry counters at zero. -/
def doWithRetry (cfg : Config) (method : String) (script : List Attempt)
    (now : Int) (cb : CBState) : ExecOutcome × Nat × CBState :=
  doWithRetryLoop cfg (isIdempotent method) script now cb 0 0 0

/-- Translation of `APIError` (errors.go). -/
structure APIError where
  code : String
  message : String
  docURL : String
deriving DecidableEq

/-- Translation of the HTML sniff inside `ParseAPIError` (errors.go):
`len(bodyStr) > 0 && (bodyStr[0] == '<' ||
strings.HasPrefix(strings.TrimSpace(bodyStr), "<!"))`. -/
def looksLikeHTML (body : String) : Bool :=
  !(body == ("")) && (body.front == '<' || (body.trim).startsWith ("<!"))

/-- Translation of `ParseAPIError` (errors.go). The stdlib JSON decode of
the `{error: {code, message, doc_url}}` envelope is abstracted as a total
`decode` oracle returning the envelope's error field on success and `none`
on decode failure; the theorems quantify over every such oracle. -/
def ParseAPIError (decode : String → Option APIError) (body : String) : APIError :=
  match decode body with
  | some e => e
  | none =>
    if looksLikeHTML body then
      { code := ("not_found")
        message := ("Resource not found or endpoint does not exist")
        docURL := ("") }
    else
      { code := ("")
        message := body
        docURL := ("") }

/-- Fold of `record5xxError` over a list of outcome times: a sequence of
consecutive 5xx outcomes reported to the breaker, each with its
timestamp. -/
def record5xxSeq (threshold : Nat) : CBState → List Int → CBState
  | cb, [] => cb
  | cb, t :: ts => record5xxSeq threshold (record5xxError threshold t cb) ts

/-- Permission-check rejection condition, as read off the source branches. -/
def rejectCond (cooldown : Int) (now : Int) (cb : CBState) : Prop :=
  (cb.state = CircuitState.Open ∧ now - cb.openedAt < cooldown) ∨
    (cb.state = CircuitState.HalfOpen ∧ cb.halfOpenInFlight = true)

lemma checkCircuitBreaker_closed (cooldown now : Int) (cb : CBState)
    (h : cb.state = CircuitState.Closed) :
    checkCircuitBreaker cooldown now cb = (true, cb) := by
  unfold checkCircuitBreaker
  rw [h]

lemma checkCircuitBreaker_reject (cooldown now : Int) (cb : CBState)
    (h : rejectCond cooldown now cb) :
    checkCircuitBreaker cooldown now cb = (false, cb) := by
  unfold checkCircuitBreaker
  rcases h with ⟨hs, ht⟩ | ⟨hs, hf⟩
  · rw [hs]
    rw [if_neg (by omega)]
  · rw [hs]
    rw [if_pos hf]

lemma checkCircuitBreaker_false_iff (cooldown now : Int) (cb : CBState) :
    (checkCircuitBreaker cooldown now cb).1 = false ↔ rejectCond cooldown now cb := by
  unfold checkCircuitBreaker rejectCond
  rcases hcb : cb.state with _ | _ | _
  · simp [hcb]
  · by_cases ht : cooldown ≤ now - cb.openedAt
    · simp [ht]
      try omega
    · simp [ht]
      try omega
  · by_cases hf : cb.halfOpenInFlight
    · simp [hf]
    · simp [hf]

lemma checkCircuitBreaker_preserves (cooldown now : Int) (cb : CBState) :
    ((checkCircuitBreaker cooldown now cb).2).consecutive5xx = cb.consecutive5xx ∧
      ((checkCircuitBreaker cooldown now cb).2).openedAt = cb.openedAt := by
  unfold checkCircuitBreaker
  rcases cb.state with _ | _ | _ <;> simp <;> split <;> simp

lemma doWithRetryLoop_reject (cfg : Config) (isIdem : Bool) (script : List Attempt)
    (now : Int) (cb : CBState) (r429 r5 used : Nat)
    (h : rejectCond cfg.cbCooldown now cb) :
    doWithRetryLoop cfg isIdem script now cb r429 r5 used =
      (ExecOutcome.circuitOpen, used, cb) := by
  rw [doWithRetryLoop]
  rw [checkCircuitBreaker_reject cfg.cbCooldown now cb h]

lemma record5xxError_closed_step (th : Nat) (now : Int) (c : Nat) (op : Int)
    (h : c + 1 < th) :
    record5xxError th now ⟨CircuitState.Closed, c, op, false⟩ =
      ⟨CircuitState.Closed, c + 1, op, false⟩ := by
  unfold record5xxError
  simp [show ¬ th ≤ c + 1 by omega]

lemma record5xxError_closed_trip (th : Nat) (now : Int) (c : Nat) (op : Int)
    (h : th ≤ c + 1) :
    record5xxError th now ⟨CircuitState.Closed, c, op, false⟩ =
      ⟨CircuitState.Open, c + 1, now, false⟩ := by
  unfold record5xxError
  simp [h]

lemma record5xxError_open_stays (th : Nat) (now : Int) (cb : CBState)
    (h1 : cb.state = CircuitState.Open) (h2 : th ≤ cb.consecutive5xx + 1) :
    record5xxError th now cb =
      ⟨CircuitState.Open, cb.consecutive5xx + 1, now, false⟩ := by
  unfold record5xxError
  simp [h1, h2]

lemma record5xxSeq_append (th : Nat) (xs ys : List Int) :
    ∀ cb : CBState, record5xxSeq th cb (xs ++ ys) =
      record5xxSeq th (record5xxSeq th cb xs) ys := by
  induction xs with
  | nil => intro cb; rfl
  | cons x xs ih =>
    intro cb
    rw [List.cons_append, record5xxSeq, record5xxSeq]
    exact ih (record5xxError th x cb)

lemma record5xxSeq_closed (th : Nat) (op : Int) (ts : List Int) :
    ∀ c : Nat, c + ts.length < th →
      record5xxSeq th ⟨CircuitState.Closed, c, op, false⟩ ts =
        ⟨CircuitState.Closed, c + ts.length, op, false⟩ := by
  induction ts with
  | nil => intro c h; rfl
  | cons t ts ih =>
    intro c h
    rw [record5xxSeq, record5xxError_closed_step th t c op (by simp at h; omega)]
    rw [ih (c + 1) (by simp at h ⊢; omega)]
    have hc : c + 1 + ts.length = c + (t :: ts).length := by simp; omega
    rw [hc]

lemma record5xxSeq_open (th : Nat) (ts : List Int) :
    ∀ cb : CBState, cb.state = CircuitState.Open → th ≤ cb.consecutive5xx →
      (record5xxSeq th cb ts).state = CircuitState.Open ∧
        th ≤ (record5xxSeq th cb ts).consecutive5xx := by
  induction ts with
  | nil => intro cb h1 h2; exact ⟨h1, h2⟩
  | cons t ts ih =>
    intro cb h1 h2
    rw [record5xxSeq, record5xxError_open_stays th t cb h1 (by omega)]
    refine ih _ rfl ?_
    show th ≤ cb.consecutive5xx + 1
    omega

lemma record5xxSeq_reaches_open (th : Nat) (ts : List Int) :
    ∀ (c : Nat) (op : Int), c < th → th ≤ c + ts.length →
      (record5xxSeq th ⟨CircuitState.Closed, c, op, false⟩ ts).state =
        CircuitState.Open := by
  induction ts with
  | nil => intro c op h1 h2; simp at h2; omega
  | cons t ts ih =>
    intro c op h1 h2
    by_cases htrip : th ≤ c + 1
    · rw [record5xxSeq, record5xxError_closed_trip th t c op htrip]
      exact (record5xxSeq_open th ts _ rfl htrip).1
    · rw [record5xxSeq, record5xxError_closed_step th t c op (by omega)]
      exact ih (c + 1) op (by omega) (by simp at h2 ⊢; omega)

/-- Claim C2: starting Closed with a zero counter, a sequence of
consecutive 5xx outcomes drives the breaker to Open exactly when the
running count first reaches the threshold — the state after any prefix is
Open iff the prefix length is at least the threshold — and the opening
transition records `openedAt` as the timestamp of the threshold-th
outcome. -/
theorem c2_opens_exactly_at_threshold (th : Nat) (op : Int) (hth : 0 < th) :
    (∀ ts : List Int,
      (record5xxSeq th ⟨CircuitState.Closed, 0, op, false⟩ ts).state =
          CircuitState.Open ↔ th ≤ ts.length) ∧
    (∀ (ts : List Int) (t : Int), ts.length + 1 = th →
      record5xxSeq th ⟨CircuitState.Closed, 0, op, false⟩ (ts ++ [t]) =
        ⟨CircuitState.Open, th, t, false⟩) := by
  constructor
  · intro ts
    constructor
    · intro h
      by_contra hlt
      rw [record5xxSeq_closed th op ts 0 (by omega)] at h
      exact absurd h (by simp)
    · intro h
      exact record5xxSeq_reaches_open th ts 0 op hth (by omega)
  · intro ts t hlen
    rw [record5xxSeq_append th ts [t],
      record5xxSeq_closed th op ts 0 (by omega)]
    simp only [Nat.zero_add]
    rw [record5xxSeq, record5xxError_closed_trip th t ts.length op (by omega)]
    rw [show ts.length + 1 = th from hlen]
    rfl

/-- Witness for C2 at threshold 2: two 5xx outcomes at times 3 and 4 open
the breaker with `openedAt = 4`; the one-outcome prefix is not Open. -/
theorem c2_witness :
    (record5xxSeq 2 ⟨CircuitState.Closed, 0, 0, false⟩ [3, 4]).state =
        CircuitState.Open ∧
      record5xxSeq 2 ⟨CircuitState.Closed, 0, 0, false⟩ ([3] ++ [4]) =
        ⟨CircuitState.Open, 2, 4, false⟩ :=
  ⟨((c2_opens_exactly_at_threshold 2 0 (by decide)).1 [3, 4]).mpr (by decide),
    (c2_opens_exactly_at_threshold 2 0 (by decide)).2 [3] 4 (by decide)⟩

lemma doWithRetryLoop_failure (cfg : Config) (isIdem : Bool) (a : Attempt)
    (rest : List Attempt) (now : Int) (cb : CBState) (r429 r5 used : Nat)
    (hres : a.result = TransportResult.failure)
    (hallow : (checkCircuitBreaker cfg.cbCooldown now cb).1 = true) :
    doWithRetryLoop cfg isIdem (a :: rest) now cb r429 r5 used =
      (ExecOutcome.transportError, used + 1,
        (checkCircuitBreaker cfg.cbCooldown now cb).2) := by
  obtain ⟨res, j⟩ := a
  dsimp only at hres
  subst hres
  rcases hchk : checkCircuitBreaker cfg.cbCooldown now cb with ⟨b, cb2⟩
  rw [hchk] at hallow
  simp at hallow
  subst hallow
  rw [doWithRetryLoop, hchk]

lemma doWithRetryLoop_2xx4xx (cfg : Config) (isIdem : Bool) (a : Attempt)
    (s : Nat) (ra : Option Int) (rest : List Attempt) (now : Int) (cb : CBState)
    (r429 r5 used : Nat)
    (hres : a.result = TransportResult.response s ra)
    (hcb : cb.state = CircuitState.Closed)
    (hs : (200 ≤ s ∧ s < 300) ∨ (400 ≤ s ∧ s < 500 ∧ s ≠ 429)) :
    doWithRetryLoop cfg isIdem (a :: rest) now cb r429 r5 used =
      (ExecOutcome.response s, used + 1, recordSuccess cb) := by
  obtain ⟨res, j⟩ := a
  dsimp only at hres
  subst hres
  rw [doWithRetryLoop, checkCircuitBreaker_closed cfg.cbCooldown now cb hcb]
  rcases hs with h2 | h4
  · simp [h2]
  · have hn2 : ¬ (200 ≤ s ∧ s < 300) := by omega
    simp [hn2, h4]

lemma doWithRetryLoop_429_terminal (cfg : Config) (isIdem : Bool) (a : Attempt)
    (ra : Option Int) (rest : List Attempt) (now : Int) (cb : CBState)
    (r429 r5 used : Nat)
    (hres : a.result = TransportResult.response 429 ra)
    (hcb : cb.state = CircuitState.Closed)
    (hmax : cfg.maxRateLimitRetries ≤ r429) :
    doWithRetryLoop cfg isIdem (a :: rest) now cb r429 r5 used =
      (ExecOutcome.response 429, used + 1, cb) := by
  obtain ⟨res, j⟩ := a
  dsimp only at hres
  subst hres
  rw [doWithRetryLoop, checkCircuitBreaker_closed cfg.cbCooldown now cb hcb]
  simp [hmax]

lemma doWithRetryLoop_429_retry (cfg : Config) (isIdem : Bool) (a : Attempt)
    (ra : Option Int) (rest : List Attempt) (now : Int) (cb : CBState)
    (r429 r5 used : Nat)
    (hres : a.result = TransportResult.response 429 ra)
    (hcb : cb.state = CircuitState.Closed)
    (hlt : r429 < cfg.maxRateLimitRetries) :
    doWithRetryLoop cfg isIdem (a :: rest) now cb r429 r5 used =
      doWithRetryLoop cfg isIdem rest
        (now + computeDelay429 cfg.rateLimitBaseDelay r429 a.rand ra)
        cb (r429 + 1) r5 (used + 1) := by
  obtain ⟨res, j⟩ := a
  dsimp only at hres
  subst hres
  rw [doWithRetryLoop, checkCircuitBreaker_closed cfg.cbCooldown now cb hcb]
  have hn : ¬ cfg.maxRateLimitRetries ≤ r429 := by omega
  simp [hn]

lemma doWithRetryLoop_5xx_terminal (cfg : Config) (isIdem : Bool) (a : Attempt)
    (s : Nat) (ra : Option Int) (rest : List Attempt) (now : Int) (cb : CBState)
    (r429 r5 used : Nat)
    (hres : a.result = TransportResult.response s ra)
    (hcb : cb.state = CircuitState.Closed)
    (hs : 500 ≤ s)
    (hterm : isIdem = false ∨ cfg.max5xxRetries ≤ r5) :
    doWithRetryLoop cfg isIdem (a :: rest) now cb r429 r5 used =
      (ExecOutcome.response s, used + 1, record5xxError cfg.cbThreshold now cb) := by
  obtain ⟨res, j⟩ := a
  dsimp only at hres
  subst hres
  rw [doWithRetryLoop, checkCircuitBreaker_closed cfg.cbCooldown now cb hcb]
  have hn2 : ¬ (200 ≤ s ∧ s < 300) := by omega
  have hn4 : ¬ (400 ≤ s ∧ s < 500 ∧ s ≠ 429) := by omega
  have hn429 : ¬ s = 429 := by omega
  simp [hn2, hn4, hn429, hs, hterm]

lemma doWithRetryLoop_5xx_retry (cfg : Config) (a : Attempt)
    (s : Nat) (ra : Option Int) (rest : List Attempt) (now : Int) (cb : CBState)
    (r429 r5 used : Nat)
    (hres : a.result = TransportResult.response s ra)
    (hcb : cb.state = CircuitState.Closed)
    (hs : 500 ≤ s)
    (hlt : r5 < cfg.max5xxRetries) :
    doWithRetryLoop cfg true (a :: rest) now cb r429 r5 used =
      doWithRetryLoop cfg true rest (now + cfg.serverErrorRetryDelay)
        (record5xxError cfg.cbThreshold now cb) r429 (r5 + 1) (used + 1) := by
  obtain ⟨res, j⟩ := a
  dsimp only at hres
  subst hres
  rw [doWithRetryLoop, checkCircuitBreaker_closed cfg.cbCooldown now cb hcb]
  have hn2 : ¬ (200 ≤ s ∧ s < 300) := by omega
  have hn4 : ¬ (400 ≤ s ∧ s < 500 ∧ s ≠ 429) := by omega
  have hn429 : ¬ s = 429 := by omega
  have hn4b : ¬ (400 ≤ s ∧ s < 500) := by omega
  have hnr : ¬ cfg.max5xxRetries ≤ r5 := by omega
  simp [hn2, hn4, hn4b, hn429, hs, hnr]

/-- Claim C7: a 2xx outcome, or any 4xx outcome other than 429, resets the
breaker from any state — `recordSuccess` forces Closed, zeroes the
consecutive-5xx counter and clears the in-flight flag — and the executor
dispatches exactly those status bands to `recordSuccess`, returning the
response as terminal. -/
theorem c7_success_resets_breaker :
    (∀ cb : CBState,
      recordSuccess cb = ⟨CircuitState.Closed, 0, cb.openedAt, false⟩) ∧
    (∀ (cfg : Config) (isIdem : Bool) (a : Attempt) (s : Nat) (ra : Option Int)
        (rest : List Attempt) (now : Int) (cb : CBState) (r429 r5 used : Nat),
      a.result = TransportResult.response s ra →
      cb.state = CircuitState.Closed →
      ((200 ≤ s ∧ s < 300) ∨ (400 ≤ s ∧ s < 500 ∧ s ≠ 429)) →
      doWithRetryLoop cfg isIdem (a :: rest) now cb r429 r5 used =
        (ExecOutcome.response s, used + 1, recordSuccess cb)) := by
  constructor
  · intro cb
    rfl
  · intro cfg isIdem a s ra rest now cb r429 r5 used hres hcb hs
    exact doWithRetryLoop_2xx4xx cfg isIdem a s ra rest now cb r429 r5 used hres hcb hs

/-- Witness for C7: a half-open breaker with 4 accumulated errors and a
probe in flight is fully reset by `recordSuccess`, and a 404 response from
a closed breaker is returned terminal through `recordSuccess`. -/
theorem c7_witness :
    recordSuccess ⟨CircuitState.HalfOpen, 4, 7, true⟩ =
        ⟨CircuitState.Closed, 0, 7, false⟩ ∧
      doWithRetryLoop defaultConfig true [⟨TransportResult.response 404 none, 0⟩] 0
          ⟨CircuitState.Closed, 2, 0, false⟩ 0 0 0 =
        (ExecOutcome.response 404, 0 + 1,
          recordSuccess ⟨CircuitState.Closed, 2, 0, false⟩) :=
  ⟨c7_success_resets_breaker.1 ⟨CircuitState.HalfOpen, 4, 7, true⟩,
    c7_success_resets_breaker.2 defaultConfig true
      ⟨TransportResult.response 404 none, 0⟩ 404 none [] 0
      ⟨CircuitState.Closed, 2, 0, false⟩ 0 0 0 rfl rfl (by omega)⟩

/-- Claim C10: an attempt whose outcome is a 429 performs no breaker
update at all — in both the terminal branch (retry budget spent) and the
retry branch, the executor passes the breaker state through unchanged, so
state, consecutive5xx, openedAt and the in-flight flag all keep their
pre-outcome values. -/
theorem c10_429_preserves_breaker (cfg : Config) (isIdem : Bool) (a : Attempt)
    (ra : Option Int) (rest : List Attempt) (now : Int) (cb : CBState)
    (r429 r5 used : Nat)
    (hres : a.result = TransportResult.response 429 ra)
    (hcb : cb.state = CircuitState.Closed) :
    doWithRetryLoop cfg isIdem (a :: rest) now cb r429 r5 used =
      if cfg.maxRateLimitRetries ≤ r429 then
        (ExecOutcome.response 429, used + 1, cb)
      else
        doWithRetryLoop cfg isIdem rest
          (now + computeDelay429 cfg.rateLimitBaseDelay r429 a.rand ra)
          cb (r429 + 1) r5 (used + 1) := by
  by_cases h : cfg.maxRateLimitRetries ≤ r429
  · rw [if_pos h]
    exact doWithRetryLoop_429_terminal cfg isIdem a ra rest now cb r429 r5 used hres hcb h
  · rw [if_neg h]
    exact doWithRetryLoop_429_retry cfg isIdem a ra rest now cb r429 r5 used hres hcb
      (by omega)

/-- Witness for C10: with the rate-limit budget already spent, a 429 from
a closed breaker with 3 accumulated errors is returned terminal with the
breaker bit-for-bit unchanged. -/
theorem c10_witness :
    doWithRetryLoop defaultConfig true [⟨TransportResult.response 429 none, 0⟩] 0
        ⟨CircuitState.Closed, 3, 9, false⟩ 3 0 0 =
      (ExecOutcome.response 429, 0 + 1, ⟨CircuitState.Closed, 3, 9, false⟩) := by
  have h := c10_429_preserves_breaker defaultConfig true
    ⟨TransportResult.response 429 none, 0⟩ none [] 0
    ⟨CircuitState.Closed, 3, 9, false⟩ 3 0 0 rfl rfl
  rw [if_pos (by decide)] at h
  exact h

/-- Claim C8 counterexample: a transport failure during the half-open
probe. The permission check that precedes the failed attempt sets
`halfOpenProbeInFlight`, and that change persists, so the breaker fields
are not all unchanged by the failed attempt, contrary to the claim. -/
theorem c8_counterexample_check_mutation :
    doWithRetry ⟨5, 30, 3, 4, 1, 1⟩ ("GET") [⟨TransportResult.failure, 0⟩] 50
        ⟨CircuitState.HalfOpen, 3, 0, false⟩ =
      (ExecOutcome.transportError, 1, ⟨CircuitState.HalfOpen, 3, 0, true⟩) ∧
    (⟨CircuitState.HalfOpen, 3, 0, true⟩ : CBState) ≠
      ⟨CircuitState.HalfOpen, 3, 0, false⟩ := by
  decide

/-- Claim C8 as amended: a transport-layer failure is returned
immediately — one transport attempt, no retry, the loop ends so neither
retry counter advances — and no breaker outcome update runs, leaving
`consecutiveServerErrors` and `openedAt` exactly as the preceding
permission check left them (and the check itself never alters those two
fields); however the permission check's own transitions (Open to
HalfOpen, or setting the half-open in-flight flag) do persist. -/
theorem c8_amended_transport_failure_frame :
    (∀ (cfg : Config) (isIdem : Bool) (a : Attempt) (rest : List Attempt)
        (now : Int) (cb : CBState) (r429 r5 used : Nat),
      a.result = TransportResult.failure →
      (checkCircuitBreaker cfg.cbCooldown now cb).1 = true →
      doWithRetryLoop cfg isIdem (a :: rest) now cb r429 r5 used =
        (ExecOutcome.transportError, used + 1,
          (checkCircuitBreaker cfg.cbCooldown now cb).2)) ∧
    (∀ (cooldown now : Int) (cb : CBState),
      ((checkCircuitBreaker cooldown now cb).2).consecutive5xx =
          cb.consecutive5xx ∧
        ((checkCircuitBreaker cooldown now cb).2).openedAt = cb.openedAt) := by
  constructor
  · intro cfg isIdem a rest now cb r429 r5 used hres hallow
    exact doWithRetryLoop_failure cfg isIdem a rest now cb r429 r5 used hres hallow
  · intro cooldown now cb
    exact checkCircuitBreaker_preserves cooldown now cb

/-- Witness for C8: a transport failure from a closed breaker returns the
transport error after one attempt with the breaker unchanged. -/
theorem c8_witness :
    doWithRetryLoop defaultConfig true [⟨TransportResult.failure, 0⟩] 0
        ⟨CircuitState.Closed, 2, 0, false⟩ 0 0 0 =
      (ExecOutcome.transportError, 0 + 1,
        (checkCircuitBreaker defaultConfig.cbCooldown 0
          ⟨CircuitState.Closed, 2, 0, false⟩).2) :=
  c8_amended_transport_failure_frame.1 defaultConfig true
    ⟨TransportResult.failure, 0⟩ [] 0 ⟨CircuitState.Closed, 2, 0, false⟩ 0 0 0
    rfl (by decide)

/-- Attempt whose transport result is a 429 response (any Retry-After
header). -/
def is429 (a : Attempt) : Bool :=
  match a.result with
  | TransportResult.response s _ => s == 429
  | TransportResult.failure => false

lemma is429_spec (a : Attempt) (h : is429 a = true) :
    ∃ ra, a.result = TransportResult.response 429 ra := by
  obtain ⟨res, j⟩ := a
  cases res with
  | failure => simp [is429] at h
  | response s ra =>
    simp [is429] at h
    subst h
    exact ⟨ra, rfl⟩

/-- Attempt whose transport result is a server-error (5xx) response. -/
def is5xx (a : Attempt) : Bool :=
  match a.result with
  | TransportResult.response s _ => decide (500 ≤ s)
  | TransportResult.failure => false

lemma is5xx_spec (a : Attempt) (h : is5xx a = true) :
    ∃ s ra, a.result = TransportResult.response s ra ∧ 500 ≤ s := by
  obtain ⟨res, j⟩ := a
  cases res with
  | failure => simp [is5xx] at h
  | response s ra =>
    simp [is5xx] at h
    exact ⟨s, ra, rfl, h⟩

lemma c6_loop (cfg : Config) (isIdem : Bool) :
    ∀ (n : Nat) (script : List Attempt) (now : Int) (c : Nat) (op : Int)
      (r429 r5 used : Nat),
      (∀ a ∈ script, is429 a = true) →
      r429 + n = cfg.maxRateLimitRetries →
      n < script.length →
      doWithRetryLoop cfg isIdem script now ⟨CircuitState.Closed, c, op, false⟩
          r429 r5 used =
        (ExecOutcome.response 429, used + n + 1,
          ⟨CircuitState.Closed, c, op, false⟩) := by
  intro n
  induction n with
  | zero =>
    intro script now c op r429 r5 used hall hmax hlen
    cases script with
    | nil => simp at hlen
    | cons a rest =>
      obtain ⟨ra, hra⟩ := is429_spec a (hall a (by simp))
      rw [doWithRetryLoop_429_terminal cfg isIdem a ra rest now _ r429 r5 used
        hra rfl (by omega)]
  | succ n ih =>
    intro script now c op r429 r5 used hall hmax hlen
    cases script with
    | nil => simp at hlen
    | cons a rest =>
      obtain ⟨ra, hra⟩ := is429_spec a (hall a (by simp))
      rw [doWithRetryLoop_429_retry cfg isIdem a ra rest now _ r429 r5 used
        hra rfl (by omega)]
      rw [show used + (n + 1) + 1 = used + 1 + n + 1 by omega]
      exact ih rest _ c op (r429 + 1) r5 (used + 1)
        (fun x hx => hall x (by simp [hx])) (by omega) (by simp at hlen ⊢; omega)

/-- Claim C6: a logical call whose transport responses are all 429,
starting from a closed breaker, spends the full rate-limit retry budget
and then returns the last 429 response with a nil error — the outcome is
the `(resp, nil)` case, not an error — after exactly
`maxRateLimitRetries + 1` transport attempts, with the breaker state
unchanged. -/
theorem c6_rate_limit_exhaustion (cfg : Config) (method : String)
    (script : List Attempt) (now : Int) (c : Nat) (op : Int)
    (hall : ∀ a ∈ script, is429 a = true)
    (hlen : cfg.maxRateLimitRetries < script.length) :
    doWithRetry cfg method script now ⟨CircuitState.Closed, c, op, false⟩ =
      (ExecOutcome.response 429, cfg.maxRateLimitRetries + 1,
        ⟨CircuitState.Closed, c, op, false⟩) := by
  unfold doWithRetry
  rw [c6_loop cfg (isIdempotent method) cfg.maxRateLimitRetries script now c op
    0 0 0 hall (by omega) hlen]
  simp

/-- Witness for C6: four scripted 429 responses (one carrying a
Retry-After header) under the default configuration (3 rate-limit
retries): the call returns the fourth 429 after 4 transport attempts. -/
theorem c6_witness :
    doWithRetry defaultConfig ("GET")
        [⟨TransportResult.response 429 none, 0⟩,
          ⟨TransportResult.response 429 (some 2), 5⟩,
          ⟨TransportResult.response 429 none, 1⟩,
          ⟨TransportResult.response 429 none, 0⟩] 0
        ⟨CircuitState.Closed, 0, 0, false⟩ =
      (ExecOutcome.response 429, defaultConfig.maxRateLimitRetries + 1,
        ⟨CircuitState.Closed, 0, 0, false⟩) :=
  c6_rate_limit_exhaustion defaultConfig ("GET") _ 0 0 0 (by decide) (by decide)

lemma c4_loop (cfg : Config) (as : List Attempt) :
    ∀ (alast : Attempt) (slast : Nat) (ra : Option Int) (rest : List Attempt)
      (now : Int) (c : Nat) (op : Int) (r429 r5 used : Nat),
      (∀ a ∈ as, is5xx a = true) →
      alast.result = TransportResult.response slast ra →
      500 ≤ slast →
      r5 + as.length = cfg.max5xxRetries →
      c + as.length + 1 ≤ cfg.cbThreshold →
      (doWithRetryLoop cfg true (as ++ alast :: rest) now
          ⟨CircuitState.Closed, c, op, false⟩ r429 r5 used).1 =
          ExecOutcome.response slast ∧
        (doWithRetryLoop cfg true (as ++ alast :: rest) now
          ⟨CircuitState.Closed, c, op, false⟩ r429 r5 used).2.1 =
          used + as.length + 1 := by
  induction as with
  | nil =>
    intro alast slast ra rest now c op r429 r5 used hall hres hs hmax hth
    rw [List.nil_append]
    rw [doWithRetryLoop_5xx_terminal cfg true alast slast ra rest now _ r429 r5
      used hres rfl hs (Or.inr (by simp at hmax; omega))]
    simp
  | cons a as ih =>
    intro alast slast ra rest now c op r429 r5 used hall hres hs hmax hth
    obtain ⟨s, ra2, hra, hs2⟩ := is5xx_spec a (hall a (by simp))
    rw [List.cons_append]
    rw [doWithRetryLoop_5xx_retry cfg a s ra2 (as ++ alast :: rest) now _ r429
      r5 used hra rfl hs2 (by simp at hmax; omega)]
    rw [record5xxError_closed_step cfg.cbThreshold now c op (by simp at hth; omega)]
    have h := ih alast slast ra rest (now + cfg.serverErrorRetryDelay) (c + 1)
      op r429 (r5 + 1) (used + 1) (fun x hx => hall x (by simp [hx])) hres hs
      (by simp at hmax ⊢; omega) (by simp at hth ⊢; omega)
    refine ⟨h.1, ?_⟩
    rw [h.2]
    simp
    omega

/-- Claim C4 counterexample: configuration with threshold 1 and one
server-error retry; a read-only GET whose responses are all 500. The
first 5xx trips the breaker, so the retry attempt's permission check
fails: the call returns the circuit-open error after a single transport
attempt, not the last 5xx response after `max5xxRetries` retries as the
claim states. -/
theorem c4_counterexample_breaker_trips_midcall :
    doWithRetry ⟨1, 30, 3, 4, 1, 1⟩ ("GET")
        [⟨TransportResult.response 500 none, 0⟩,
          ⟨TransportResult.response 500 none, 0⟩] 0
        ⟨CircuitState.Closed, 0, 0, false⟩ =
      (ExecOutcome.circuitOpen, 1, ⟨CircuitState.Open, 1, 0, false⟩) ∧
    ExecOutcome.circuitOpen ≠ ExecOutcome.response 500 := by
  decide

/-- Claim C4 as amended: every 5xx outcome is reported to the breaker
(the consecutive-5xx counter increments); a non-read-only method's 5xx is
returned terminal after zero retries; and a read-only method whose
responses are all 5xx is retried exactly `max5xxRetries` times and the
last 5xx returned terminal — provided the recorded errors do not trip the
breaker mid-call (counter stays below the threshold through the last
attempt); if they do trip it, the next attempt's permission check fails
and the circuit-open error is returned instead (see the
counterexample). -/
theorem c4_amended_5xx_retry_policy :
    (∀ (th : Nat) (now : Int) (cb : CBState),
      (record5xxError th now cb).consecutive5xx = cb.consecutive5xx + 1) ∧
    (∀ (cfg : Config) (method : String) (a : Attempt) (s : Nat)
        (ra : Option Int) (rest : List Attempt) (now : Int) (cb : CBState)
        (r429 r5 used : Nat),
      isIdempotent method = false →
      a.result = TransportResult.response s ra →
      cb.state = CircuitState.Closed → 500 ≤ s →
      doWithRetryLoop cfg (isIdempotent method) (a :: rest) now cb r429 r5 used =
        (ExecOutcome.response s, used + 1, record5xxError cfg.cbThreshold now cb)) ∧
    (∀ (cfg : Config) (as : List Attempt) (alast : Attempt) (slast : Nat)
        (ra : Option Int) (rest : List Attempt) (now : Int) (c : Nat) (op : Int)
        (r429 : Nat),
      (∀ a ∈ as, is5xx a = true) →
      alast.result = TransportResult.response slast ra →
      500 ≤ slast →
      as.length = cfg.max5xxRetries →
      c + cfg.max5xxRetries + 1 ≤ cfg.cbThreshold →
      (doWithRetryLoop cfg true (as ++ alast :: rest) now
          ⟨CircuitState.Closed, c, op, false⟩ r429 0 0).1 =
          ExecOutcome.response slast ∧
        (doWithRetryLoop cfg true (as ++ alast :: rest) now
          ⟨CircuitState.Closed, c, op, false⟩ r429 0 0).2.1 =
          cfg.max5xxRetries + 1) := by
  refine ⟨?_, ?_, ?_⟩
  · intro th now cb
    unfold record5xxError
    dsimp only
    split
    · rfl
    · split
      · rfl
      · rfl
  · intro cfg method a s ra rest now cb r429 r5 used hidem hres hcb hs
    exact doWithRetryLoop_5xx_terminal cfg (isIdempotent method) a s ra rest now
      cb r429 r5 used hres hcb hs (Or.inl hidem)
  · intro cfg as alast slast ra rest now c op r429 hall hres hs hlen hth
    have h := c4_loop cfg as alast slast ra rest now c op r429 0 0 hall hres hs
      (by omega) (by omega)
    refine ⟨h.1, ?_⟩
    rw [h.2, hlen]
    omega

/-- Witness for C4 (amended): counter increment at a concrete breaker; a
POST receiving 503 returned terminal with zero retries; a GET under
threshold 5 with one 500 then one 502 retried once and the 502 returned
after 2 attempts. -/
theorem c4_witness :
    (record5xxError 5 0 ⟨CircuitState.Closed, 0, 0, false⟩).consecutive5xx =
        0 + 1 ∧
      doWithRetryLoop defaultConfig (isIdempotent ("POST"))
          [⟨TransportResult.response 503 none, 0⟩] 0
          ⟨CircuitState.Closed, 0, 0, false⟩ 0 0 0 =
        (ExecOutcome.response 503, 0 + 1,
          record5xxError defaultConfig.cbThreshold 0
            ⟨CircuitState.Closed, 0, 0, false⟩) ∧
      (doWithRetryLoop ⟨5, 30, 3, 4, 1, 1⟩ true
          ([⟨TransportResult.response 500 none, 0⟩] ++
            ⟨TransportResult.response 502 none, 0⟩ :: []) 0
          ⟨CircuitState.Closed, 0, 0, false⟩ 0 0 0).1 =
          ExecOutcome.response 502 ∧
        (doWithRetryLoop ⟨5, 30, 3, 4, 1, 1⟩ true
          ([⟨TransportResult.response 500 none, 0⟩] ++
            ⟨TransportResult.response 502 none, 0⟩ :: []) 0
          ⟨CircuitState.Closed, 0, 0, false⟩ 0 0 0).2.1 =
          (⟨5, 30, 3, 4, 1, 1⟩ : Config).max5xxRetries + 1 :=
  ⟨c4_amended_5xx_retry_policy.1 5 0 ⟨CircuitState.Closed, 0, 0, false⟩,
    c4_amended_5xx_retry_policy.2.1 defaultConfig ("POST")
      ⟨TransportResult.response 503 none, 0⟩ 503 none [] 0
      ⟨CircuitState.Closed, 0, 0, false⟩ 0 0 0 (by decide) rfl rfl (by omega),
    c4_amended_5xx_retry_policy.2.2 ⟨5, 30, 3, 4, 1, 1⟩
      [⟨TransportResult.response 500 none, 0⟩]
      ⟨TransportResult.response 502 none, 0⟩ 502 none [] 0 0 0 0
      (by decide) rfl (by omega) (by decide) (by decide)⟩

/-- Claim C1: after the cooldown elapses the first permission check
transitions the breaker from Open to HalfOpen and is granted, but —
contrary to the claim, the spec, and the code's own "Only one probe at a
time" comment — it does not set `halfOpenInFlight`, so a second
permission check issued while that first probe is still outstanding is
also granted rather than rejected: two probes can be in flight in the
HalfOpen state. Evaluated at breaker `⟨Open, 5, openedAt 0, no probe⟩`,
cooldown 30, both checks at time 30. -/
theorem c1_halfopen_double_probe_bug :
    (checkCircuitBreaker 30 30 ⟨CircuitState.Open, 5, 0, false⟩).1 = true ∧
    (checkCircuitBreaker 30 30 ⟨CircuitState.Open, 5, 0, false⟩).2 =
      ⟨CircuitState.HalfOpen, 5, 0, false⟩ ∧
    (checkCircuitBreaker 30 30 ⟨CircuitState.HalfOpen, 5, 0, false⟩).1 = true := by
  decide

/-- Claim C3: the permission check rejects exactly when the breaker is
Open with the cooldown not yet elapsed since `openedAt`, or HalfOpen with
a probe already in flight; and whenever it rejects, the executor loop
returns the circuit-open error at once, with no transport attempt
consumed, the retry counters dead (the call ends), and the breaker state
returned unchanged. -/
theorem c3_reject_iff_and_no_transport :
    (∀ (cooldown now : Int) (cb : CBState),
      (checkCircuitBreaker cooldown now cb).1 = false ↔
        ((cb.state = CircuitState.Open ∧ now - cb.openedAt < cooldown) ∨
          (cb.state = CircuitState.HalfOpen ∧ cb.halfOpenInFlight = true))) ∧
    (∀ (cfg : Config) (isIdem : Bool) (script : List Attempt) (now : Int)
        (cb : CBState) (r429 r5 used : Nat),
      (checkCircuitBreaker cfg.cbCooldown now cb).1 = false →
        doWithRetryLoop cfg isIdem script now cb r429 r5 used =
          (ExecOutcome.circuitOpen, used, cb)) := by
  constructor
  · exact fun cooldown now cb => checkCircuitBreaker_false_iff cooldown now cb
  · intro cfg isIdem script now cb r429 r5 used h
    exact doWithRetryLoop_reject cfg isIdem script now cb r429 r5 used
      ((checkCircuitBreaker_false_iff cfg.cbCooldown now cb).mp h)

/-- Witness for C3 at a concrete open breaker: cooldown 30, opened at 0,
checked at time 10, one scripted attempt available but unused. -/
theorem c3_witness :
    doWithRetryLoop defaultConfig true [⟨TransportResult.response 200 none, 0⟩] 10
        ⟨CircuitState.Open, 5, 0, false⟩ 0 0 0 =
      (ExecOutcome.circuitOpen, 0, ⟨CircuitState.Open, 5, 0, false⟩) :=
  c3_reject_iff_and_no_transport.2 defaultConfig true
    [⟨TransportResult.response 200 none, 0⟩] 10
    ⟨CircuitState.Open, 5, 0, false⟩ 0 0 0 (by decide)

/-- Claim C5: at rate-limit retry attempt `k` with no Retry-After header,
the computed wait is `baseDelay * 2^k` plus a jitter that is non-negative
and strictly below half of `baseDelay * 2^k` (duration integer division,
as in the source); when a Retry-After header parses as the integer `S`,
the wait is exactly `S` seconds, overriding the exponential formula. The
hypothesis `0 < baseDelay * 2^k / 2` is the condition under which the
source's `Int63n` call is well defined. -/
theorem c5_rate_limit_delay (baseDelay : Int) (k : Nat) (r : Nat)
    (h : 0 < baseDelay * 2 ^ k / 2) :
    (0 ≤ int63n (baseDelay * 2 ^ k / 2) r ∧
      int63n (baseDelay * 2 ^ k / 2) r < baseDelay * 2 ^ k / 2 ∧
      computeDelay429 baseDelay k r none =
        baseDelay * 2 ^ k + int63n (baseDelay * 2 ^ k / 2) r) ∧
    (∀ S : Int, computeDelay429 baseDelay k r (some S) = S * second) := by
  refine ⟨⟨?_, ?_, ?_⟩, ?_⟩
  · show 0 ≤ (r : Int) % (baseDelay * 2 ^ k / 2)
    exact Int.emod_nonneg r (by omega)
  · show (r : Int) % (baseDelay * 2 ^ k / 2) < baseDelay * 2 ^ k / 2
    exact Int.emod_lt_of_pos r h
  · rfl
  · intro S
    rfl

/-- Witness for C5: base delay 4 at attempt 1 (base 8, jitter bound 4),
raw random value 7; and a Retry-After of 5 seconds. -/
theorem c5_witness :
    (0 ≤ int63n (4 * 2 ^ 1 / 2) 7 ∧
      int63n (4 * 2 ^ 1 / 2) 7 < 4 * 2 ^ 1 / 2 ∧
      computeDelay429 4 1 7 none = 4 * 2 ^ 1 + int63n (4 * 2 ^ 1 / 2) 7) ∧
    computeDelay429 4 1 7 (some 5) = 5 * second :=
  ⟨(c5_rate_limit_delay 4 1 7 (by decide)).1,
    (c5_rate_limit_delay 4 1 7 (by decide)).2 5⟩

/-- Claim C9: `ParseAPIError` is total over every decode oracle and body —
its result is always one of the decoded envelope, the synthetic
"not found" error, or the raw-body error. When decoding fails and the
body's first character is `<`, it returns the synthetic not-found error;
when decoding fails and the body does not look like HTML, the error's
message is exactly the raw body text. -/
theorem c9_parse_api_error_total (decode : String → Option APIError)
    (body : String) :
    (decode body = none → body ≠ ("") → body.front = '<' →
      ParseAPIError decode body =
        ⟨("not_found"), ("Resource not found or endpoint does not exist"), ("")⟩) ∧
    (decode body = none → looksLikeHTML body = false →
      ParseAPIError decode body = ⟨(""), body, ("")⟩) ∧
    ((∃ e, decode body = some e ∧ ParseAPIError decode body = e) ∨
      ParseAPIError decode body =
        ⟨("not_found"), ("Resource not found or endpoint does not exist"), ("")⟩ ∨
      ParseAPIError decode body = ⟨(""), body, ("")⟩) := by
  refine ⟨?_, ?_, ?_⟩
  · intro hd hne hfront
    unfold ParseAPIError
    rw [hd]
    have hh : looksLikeHTML body = true := by
      unfold looksLikeHTML
      simp [hne, hfront]
    rw [hh]
    rfl
  · intro hd hh
    unfold ParseAPIError
    rw [hd, hh]
    rfl
  · cases hd : decode body with
    | some e =>
      refine Or.inl ⟨e, rfl, ?_⟩
      unfold ParseAPIError
      rw [hd]
    | none =>
      unfold ParseAPIError
      rw [hd]
      by_cases hh : looksLikeHTML body = true
      · rw [hh]
        exact Or.inr (Or.inl rfl)
      · rw [Bool.not_eq_true] at hh
        rw [hh]
        exact Or.inr (Or.inr rfl)

/-- Witness for C9: the always-failing decode oracle on the HTML-looking
body produces the synthetic not-found error. -/
theorem c9_witness :
    ParseAPIError (fun _ => none) ("<p>") =
      ⟨("not_found"), ("Resource not found or endpoint does not exist"), ("")⟩ :=
  (c9_parse_api_error_total (fun _ => none) ("<p>")).1 rfl (by decide) (by decide)

end DubApi
